import Mathlib

/-!
Verification of the deposit path of the shielded pool program
(src/shielded_pool_program/src/instructions/deposit.rs), shallowly embedded.

Bytes are modelled as `Nat`, addresses as `Nat`.  The handler
`process_deposit` below mirrors the Rust function of the same name check by
check, in source order.  The deterministic program-derived addresses
(`Address::find_program_address` for the seeds "pool_state" and "vault") and
the program id `crate::ID` are passed as parameters: the Rust code only ever
compares account addresses and owners against them.
-/

namespace ShieldedPool

/-- The errors the deposit path can produce, mirroring the
`solana_program_error::ProgramError` variants used in deposit.rs, plus the
two failure modes of the collaborators it calls: the system transfer
(modelled from the spec, §6: fails when the payer lacks balance) and
`try_borrow_mut`. -/
inductive ProgramError where
  | NotEnoughAccountKeys
  | MissingRequiredSignature
  | InvalidAccountData
  | InvalidInstructionData
  | InvalidAccountOwner
  | UninitializedAccount
  | AccountBorrowFailed
  | InsufficientFunds
  deriving DecidableEq, Repr

/-- Modelled from the spec: `ShieldedPoolState` lives in src/state.rs, which
is not under src/.  Spec §3 gives its fields: an `is_initialized` flag, a
`leaf_count`, per-depth `filled_subtrees` hashes, and a `root_history` ring
buffer with a write cursor.  Hashes are 32-byte values, modelled as
`List Nat`. -/
structure ShieldedPoolState where
  is_initialized : Bool
  leaf_count : Nat
  filled_subtrees : List (List Nat)
  root_history : List (List Nat)
  cursor : Nat
  deriving DecidableEq, Repr

/-- Modelled from the spec: `ShieldedPoolState::add_root` lives in
src/state.rs, which is not under src/.  deposit.rs calls it as an infallible
statement `state.add_root(new_root)`; spec §4.3 describes the root-history
push: write the root at the cursor, advance the cursor modulo the capacity,
overwriting the oldest entry once full.  Nothing in deposit.rs or §4.3 makes
this touch `leaf_count` or `filled_subtrees` (the code's own TODO records
that the accumulator insertion is not implemented). -/
def ShieldedPoolState.add_root (s : ShieldedPoolState) (root : List Nat) :
    ShieldedPoolState :=
  { s with
    root_history := s.root_history.set s.cursor root
    cursor := (s.cursor + 1) % s.root_history.length }

/-- The view of one account as deposit.rs uses it: its address, its owner,
the signer and writable flags, its lamport balance, whether
`try_borrow_mut` succeeds, and (for the pool-state account) the
`ShieldedPoolState` that `bytemuck::from_bytes_mut` exposes over its data. -/
structure AccountView where
  address : Nat
  owner : Nat
  is_signer : Bool
  is_writable : Bool
  lamports : Nat
  borrowOk : Bool
  pool : ShieldedPoolState
  deriving DecidableEq, Repr

/-- `u64::from_le_bytes`: little-endian byte list to a number. -/
def u64_from_le (bs : List Nat) : Nat :=
  bs.foldr (fun b acc => b + 256 * acc) 0

/-- `data[lo..hi].try_into()` for an `[u8; n]` target: the slice of `data`
from `lo` (inclusive) to `hi` (exclusive); `some` exactly when that slice has
length `n`, `none` (the `map_err` branch in deposit.rs) otherwise. -/
def tryIntoArr (data : List Nat) (lo hi n : Nat) : Option (List Nat) :=
  let s := (data.drop lo).take (hi - lo)
  if s.length = n then some s else none

/-- One observable mutation step the handler performs, in order: the
payer-to-vault system transfer, and the root-history write. -/
inductive Effect where
  | transfer (src dst amount : Nat)
  | addRoot (root : List Nat)
  deriving DecidableEq, Repr

/-- The final account state a successful deposit leaves behind. -/
structure DepositOutcome where
  payerLamports : Nat
  vaultLamports : Nat
  poolState : ShieldedPoolState
  deriving DecidableEq, Repr

instance instDecEqExcept {ε α : Type} [DecidableEq ε] [DecidableEq α] :
    DecidableEq (Except ε α) := fun a b =>
  match a, b with
  | .ok x, .ok y =>
    if h : x = y then .isTrue (by rw [h]) else .isFalse (by simp [h])
  | .error x, .error y =>
    if h : x = y then .isTrue (by rw [h]) else .isFalse (by simp [h])
  | .ok _, .error _ => .isFalse (by simp)
  | .error _, .ok _ => .isFalse (by simp)

/-- What one call to the handler does: the mutation steps it performed, in
order, and its return value. -/
structure DepositResult where
  effects : List Effect
  res : Except ProgramError DepositOutcome
  deriving DecidableEq, Repr

/-- Lines 55..92 of deposit.rs, the phase after the system transfer has
been invoked (so the transfer effect is already on record): the two
address-derivation checks, the two owner checks, `try_borrow_mut`, the
`is_initialized` check, and finally `state.add_root(new_root)` — the
commitment was parsed earlier and discarded (`let _ = commitment` in the
source), so it is not an argument here. -/
def deposit_after_transfer (payer state_account vault : AccountView)
    (progId pdaPoolState pdaVault : Nat) (amount : Nat) (new_root : List Nat) :
    DepositResult :=
  let effs := [Effect.transfer payer.address vault.address amount]
  if state_account.address ≠ pdaPoolState then
    ⟨effs, .error .InvalidAccountData⟩
  else if state_account.owner ≠ progId then
    ⟨effs, .error .InvalidAccountOwner⟩
  else if vault.address ≠ pdaVault then
    ⟨effs, .error .InvalidAccountData⟩
  else if vault.owner ≠ progId then
    ⟨effs, .error .InvalidAccountOwner⟩
  else if !state_account.borrowOk then
    ⟨effs, .error .AccountBorrowFailed⟩
  else if !state_account.pool.is_initialized then
    ⟨effs, .error .UninitializedAccount⟩
  else
    ⟨effs ++ [Effect.addRoot new_root],
     .ok ⟨payer.lamports - amount, vault.lamports + amount,
          state_account.pool.add_root new_root⟩⟩

/-- The body of `process_deposit` once the account array has been
destructured into `[payer, state_account, vault, _system_program]`,
mirroring deposit.rs line by line: signer check, writability check, payload
length check, the three fixed-offset `try_into` parses, the zero-amount
check, the system transfer (modelled from the spec, §6: fails exactly when
the payer lacks balance), then the post-transfer phase
`deposit_after_transfer`. -/
def process_deposit_core (payer state_account vault _system_program : AccountView)
    (progId pdaPoolState pdaVault : Nat) (data : List Nat) : DepositResult :=
  if !payer.is_signer then ⟨[], .error .MissingRequiredSignature⟩
  else if !state_account.is_writable || !vault.is_writable then
    ⟨[], .error .InvalidAccountData⟩
  else if data.length ≠ 72 then ⟨[], .error .InvalidInstructionData⟩
  else
    match tryIntoArr data 0 8 8 with
    | none => ⟨[], .error .InvalidInstructionData⟩
    | some amountBytes =>
      match tryIntoArr data 8 40 32 with
      | none => ⟨[], .error .InvalidInstructionData⟩
      | some _commitment =>
        match tryIntoArr data 40 72 32 with
        | none => ⟨[], .error .InvalidInstructionData⟩
        | some new_root =>
          let amount := u64_from_le amountBytes
          if amount = 0 then ⟨[], .error .InvalidInstructionData⟩
          else if payer.lamports < amount then ⟨[], .error .InsufficientFunds⟩
          else
            deposit_after_transfer payer state_account vault
              progId pdaPoolState pdaVault amount new_root

/-- `process_deposit`: the `let [payer, state, vault, _system_program] =
accounts else return Err(NotEnoughAccountKeys)` destructuring, then the
body.  Any account list that is not exactly four long — fewer or more —
takes the `else` arm. -/
def process_deposit (progId pdaPoolState pdaVault : Nat)
    (accounts : List AccountView) (data : List Nat) : DepositResult :=
  match accounts with
  | [payer, state_account, vault, sys] =>
    process_deposit_core payer state_account vault sys progId pdaPoolState pdaVault data
  | _ => ⟨[], .error .NotEnoughAccountKeys⟩

/-! Concrete fixtures used by the closed theorems: a well-formed pool state
of depth 20 with a root-history capacity of 4, a funded signing payer, a
correctly derived and owned state and vault (program id 7, derived
addresses 2 and 3), and 72-byte payloads. -/

def samplePool : ShieldedPoolState :=
  { is_initialized := true
    leaf_count := 0
    filled_subtrees := List.replicate 20 (List.replicate 32 0)
    root_history := List.replicate 4 (List.replicate 32 0)
    cursor := 0 }

def samplePayer : AccountView :=
  { address := 1, owner := 0, is_signer := true, is_writable := true,
    lamports := 10000000, borrowOk := true, pool := samplePool }

def sampleState : AccountView :=
  { address := 2, owner := 7, is_signer := false, is_writable := true,
    lamports := 1, borrowOk := true, pool := samplePool }

def sampleVault : AccountView :=
  { address := 3, owner := 7, is_signer := false, is_writable := true,
    lamports := 500, borrowOk := true, pool := samplePool }

def sampleSys : AccountView :=
  { address := 0, owner := 0, is_signer := false, is_writable := false,
    lamports := 0, borrowOk := true, pool := samplePool }

/-- 1000000 as little-endian u64 bytes. -/
def amountBytes1M : List Nat := [64, 66, 15, 0, 0, 0, 0, 0]

def commitBytes : List Nat := List.replicate 32 17

def rootBytesA : List Nat := List.replicate 32 34

def rootBytesB : List Nat := List.replicate 32 35

def dataA : List Nat := amountBytes1M ++ commitBytes ++ rootBytesA

def dataB : List Nat := amountBytes1M ++ commitBytes ++ rootBytesB

/-- Same as `dataA` except for the commitment field (bytes 8..39). -/
def dataC : List Nat := amountBytes1M ++ List.replicate 32 99 ++ rootBytesA

def data71 : List Nat := List.replicate 71 0

def nonSigningPayer : AccountView := { samplePayer with is_signer := false }

/-- A state account whose address (9) differs from the derived one (2). -/
def badAddrState : AccountView := { sampleState with address := 9 }

/-- A correctly-addressed state account owned by program 8, not 7. -/
def badOwnerState : AccountView := { sampleState with owner := 8 }

/-- A vault whose address (9) differs from the derived one (3). -/
def badAddrVault : AccountView := { sampleVault with address := 9 }

/-- A correctly-addressed vault owned by program 8, not 7. -/
def badOwnerVault : AccountView := { sampleVault with owner := 8 }

/-- A pool state at full capacity for its depth-20 tree:
`leaf_count = 2^20`. -/
def fullPool : ShieldedPoolState := { samplePool with leaf_count := 1048576 }

def fullState : AccountView := { sampleState with pool := fullPool }

/-! Parsing facts: with a 72-byte payload the three fixed-offset slice
conversions of deposit.rs always succeed. -/

lemma tryIntoArr_amount (data : List Nat) (h : data.length = 72) :
    tryIntoArr data 0 8 8 = some (data.take 8) := by
  simp [tryIntoArr, h]

lemma tryIntoArr_commit (data : List Nat) (h : data.length = 72) :
    tryIntoArr data 8 40 32 = some ((data.drop 8).take 32) := by
  simp [tryIntoArr, h]

lemma tryIntoArr_root (data : List Nat) (h : data.length = 72) :
    tryIntoArr data 40 72 32 = some ((data.drop 40).take 32) := by
  simp [tryIntoArr, h]

/-- Every run of the post-transfer phase either errors leaving only the
transfer on record, or succeeds appending exactly one root-history write. -/
lemma after_transfer_shape (p s v : AccountView) (pid ps pv amount : Nat)
    (new_root : List Nat) :
    (∃ e, deposit_after_transfer p s v pid ps pv amount new_root =
        ⟨[Effect.transfer p.address v.address amount], .error e⟩) ∨
    deposit_after_transfer p s v pid ps pv amount new_root =
      ⟨[Effect.transfer p.address v.address amount, Effect.addRoot new_root],
       .ok ⟨p.lamports - amount, v.lamports + amount, s.pool.add_root new_root⟩⟩ := by
  unfold deposit_after_transfer
  repeat' split
  all_goals simp

/-- Every run of the handler body has one of three shapes: an error with no
effects, an error after the transfer alone, or success with the transfer
followed by the root-history write of the payload's byte 40..72 slice. -/
lemma core_shape (p s v g : AccountView) (pid ps pv : Nat) (data : List Nat) :
    (∃ e, process_deposit_core p s v g pid ps pv data = ⟨[], .error e⟩) ∨
    (∃ e, process_deposit_core p s v g pid ps pv data =
        ⟨[Effect.transfer p.address v.address (u64_from_le (data.take 8))],
         .error e⟩) ∨
    process_deposit_core p s v g pid ps pv data =
      ⟨[Effect.transfer p.address v.address (u64_from_le (data.take 8)),
        Effect.addRoot ((data.drop 40).take 32)],
       .ok ⟨p.lamports - u64_from_le (data.take 8),
            v.lamports + u64_from_le (data.take 8),
            s.pool.add_root ((data.drop 40).take 32)⟩⟩ := by
  unfold process_deposit_core
  repeat' split
  all_goals try simp_all [tryIntoArr_amount, tryIntoArr_commit, tryIntoArr_root]
  all_goals repeat' split
  all_goals try simp_all
  all_goals
    rcases after_transfer_shape p s v pid ps pv (u64_from_le (data.take 8))
      ((data.drop 40).take 32) with ⟨e, he⟩ | hok
  all_goals simp_all

/-- The transfer effect is recorded only when the account-count, signer,
writability, payload-length, nonzero-amount and payer-balance conditions
all hold: these are exactly the checks deposit.rs performs before invoking
the system transfer. -/
lemma core_pre_transfer_checks (p s v g : AccountView) (pid ps pv : Nat)
    (data : List Nat)
    (h : (process_deposit_core p s v g pid ps pv data).effects ≠ []) :
    p.is_signer = true ∧ s.is_writable = true ∧ v.is_writable = true ∧
    data.length = 72 ∧ u64_from_le (data.take 8) ≠ 0 ∧
    u64_from_le (data.take 8) ≤ p.lamports := by
  unfold process_deposit_core at h
  repeat' split at h
  all_goals try simp_all [tryIntoArr_amount, tryIntoArr_commit, tryIntoArr_root]
  all_goals repeat' split at h
  all_goals simp_all

/-- C1: refuted (code bug, recorded by the source's own TODO comment).  The
claim says the recorded root is obtained by accumulator-inserting the
commitment (payload bytes 8..39) and depends on nothing else in the
payload.  In the code, `state.add_root(new_root)` stores payload bytes
40..72 verbatim and the commitment is discarded: on a concrete successful
deposit the recorded root is the payload tail `rootBytesA`, and changing
only bytes 40..72 (`dataB`) changes the recorded root — so the root does
depend on payload content other than the commitment. -/
theorem C1_root_is_client_supplied_not_commitment_derived :
    (process_deposit 7 2 3 [samplePayer, sampleState, sampleVault, sampleSys]
        dataA).res =
      .ok ⟨9000000, 1000500, samplePool.add_root rootBytesA⟩ ∧
    (process_deposit 7 2 3 [samplePayer, sampleState, sampleVault, sampleSys]
        dataA).res ≠
      (process_deposit 7 2 3 [samplePayer, sampleState, sampleVault, sampleSys]
        dataB).res := by
  constructor
  · rfl
  · decide

/-- C2: counterexample.  The claim says that whenever `process_deposit`
returns an error — in particular on a pool_state address mismatch — the
payer-to-vault transfer is not invoked (transfer only after preconditions
1–8).  Concretely, with a state account at address 9 instead of the derived
2, the handler returns the invalid-account-data error but its effect trace
already contains the transfer: the transfer is invoked before the
address/owner/init checks. -/
theorem C2_counterexample_transfer_before_address_check :
    (process_deposit 7 2 3 [samplePayer, badAddrState, sampleVault, sampleSys]
        dataA).res = .error .InvalidAccountData ∧
    (process_deposit 7 2 3 [samplePayer, badAddrState, sampleVault, sampleSys]
        dataA).effects = [Effect.transfer 1 3 1000000] := by
  decide

/-- C2 (amended): whenever `process_deposit` returns an error, the root
history is never modified (no root-write effect occurs); and the transfer
effect occurs only after preconditions 1–5 (account count, signer,
writability, payload length, nonzero amount) and the payer-balance check
hold — but not only after preconditions 6–8, which run after the
transfer. -/
theorem C2_amended_error_leaves_root_history_untouched (progId pdaS pdaV : Nat)
    (accounts : List AccountView) (data : List Nat) (e : ProgramError)
    (herr : (process_deposit progId pdaS pdaV accounts data).res = .error e) :
    (∀ root, Effect.addRoot root ∉
        (process_deposit progId pdaS pdaV accounts data).effects) ∧
    ((process_deposit progId pdaS pdaV accounts data).effects ≠ [] →
      ∃ payer st vault sys, accounts = [payer, st, vault, sys] ∧
        payer.is_signer = true ∧ st.is_writable = true ∧
        vault.is_writable = true ∧ data.length = 72 ∧
        u64_from_le (data.take 8) ≠ 0 ∧
        u64_from_le (data.take 8) ≤ payer.lamports) := by
  rcases accounts with _ | ⟨p, _ | ⟨s, _ | ⟨v, _ | ⟨g, _ | ⟨x, rest⟩⟩⟩⟩⟩
  case nil => simp_all [process_deposit]
  case cons.nil => simp_all [process_deposit]
  case cons.cons.nil => simp_all [process_deposit]
  case cons.cons.cons.nil => simp_all [process_deposit]
  case cons.cons.cons.cons.cons =>
    simp_all [process_deposit]
  case cons.cons.cons.cons.nil =>
    simp only [process_deposit] at herr ⊢
    constructor
    · intro root hmem
      rcases core_shape p s v g progId pdaS pdaV data with
        ⟨e', he⟩ | ⟨e', he⟩ | hok
      · rw [he] at hmem; simp at hmem
      · rw [he] at hmem; simp at hmem
      · rw [hok] at herr; simp at herr
    · intro hne
      exact ⟨p, s, v, g, rfl,
        core_pre_transfer_checks p s v g progId pdaS pdaV data hne⟩

/-- C2 witness: the amended theorem applied at the concrete
counterexample input (state address 9 ≠ derived 2). -/
theorem C2_amended_witness :
    (∀ root, Effect.addRoot root ∉
        (process_deposit 7 2 3 [samplePayer, badAddrState, sampleVault, sampleSys]
          dataA).effects) ∧
    ((process_deposit 7 2 3 [samplePayer, badAddrState, sampleVault, sampleSys]
        dataA).effects ≠ [] →
      ∃ payer st vault sys,
        ([samplePayer, badAddrState, sampleVault, sampleSys] :
            List AccountView) = [payer, st, vault, sys] ∧
        payer.is_signer = true ∧ st.is_writable = true ∧
        vault.is_writable = true ∧ (dataA : List Nat).length = 72 ∧
        u64_from_le (dataA.take 8) ≠ 0 ∧
        u64_from_le (dataA.take 8) ≤ payer.lamports) :=
  C2_amended_error_leaves_root_history_untouched 7 2 3
    [samplePayer, badAddrState, sampleVault, sampleSys] dataA
    .InvalidAccountData (by decide)

/-- C3: refuted (code bug, recorded by the source's own TODO comment;
`ShieldedPoolState` is modelled from the spec since src/state.rs is not in
the sources).  On a successful deposit of amount 1000000 the vault balance
does increase by the amount (500 + 1000000 = 1000500), but `leaf_count` is
unchanged: the commitment is never inserted into any accumulator, so the
second half of the claim fails on the code. -/
theorem C3_vault_credited_but_leaf_count_unchanged :
    (process_deposit 7 2 3 [samplePayer, sampleState, sampleVault, sampleSys]
        dataA).res =
      .ok ⟨9000000, sampleVault.lamports + 1000000,
           samplePool.add_root rootBytesA⟩ ∧
    (samplePool.add_root rootBytesA).leaf_count = samplePool.leaf_count := by
  constructor
  · rfl
  · rfl

/-- C4: confirmed.  A call that reaches the payload (exactly four
accounts, signing payer, writable state and vault, 72-byte payload) whose
amount field is zero is rejected with the invalid-instruction-data error,
and no effect is performed: no transfer, no root-history write. -/
theorem C4_zero_amount_rejected_before_any_mutation (progId pdaS pdaV : Nat)
    (payer st vault sys : AccountView) (data : List Nat)
    (hsig : payer.is_signer = true) (hw1 : st.is_writable = true)
    (hw2 : vault.is_writable = true) (hlen : data.length = 72)
    (hz : u64_from_le (data.take 8) = 0) :
    process_deposit progId pdaS pdaV [payer, st, vault, sys] data =
      ⟨[], .error .InvalidInstructionData⟩ := by
  simp [process_deposit, process_deposit_core, hsig, hw1, hw2, hlen,
        tryIntoArr_amount data hlen, tryIntoArr_commit data hlen,
        tryIntoArr_root data hlen, hz]

/-- C4 witness: a zero-amount 72-byte payload at concrete accounts. -/
theorem C4_witness :
    process_deposit 7 2 3 [samplePayer, sampleState, sampleVault, sampleSys]
        (List.replicate 8 0 ++ commitBytes ++ rootBytesA) =
      ⟨[], .error .InvalidInstructionData⟩ :=
  C4_zero_amount_rejected_before_any_mutation 7 2 3
    samplePayer sampleState sampleVault sampleSys
    (List.replicate 8 0 ++ commitBytes ++ rootBytesA)
    (by decide) (by decide) (by decide) (by decide) (by decide)

/-- C5: confirmed.  For a call that reaches the account-integrity checks
(signing payer, 72-byte payload, nonzero amount, sufficient payer
balance): a state account whose address differs from the derived one is
rejected with the invalid-account-data error regardless of its owner or
writability (a non-writable account hits the writability check, which
reports the same error kind); likewise a vault address mismatch once the
state account is in order; and a correctly-addressed but not-program-owned
state (resp. vault) account on writable accounts is rejected with the
invalid-owner error. -/
theorem C5_address_and_owner_mismatch_rejected (progId pdaS pdaV : Nat)
    (payer st vault sys : AccountView) (data : List Nat)
    (hsig : payer.is_signer = true) (hlen : data.length = 72)
    (hnz : u64_from_le (data.take 8) ≠ 0)
    (hbal : ¬ payer.lamports < u64_from_le (data.take 8)) :
    (st.address ≠ pdaS →
      (process_deposit progId pdaS pdaV [payer, st, vault, sys] data).res =
        .error .InvalidAccountData) ∧
    (st.is_writable = true → vault.is_writable = true → st.address = pdaS →
      st.owner ≠ progId →
      (process_deposit progId pdaS pdaV [payer, st, vault, sys] data).res =
        .error .InvalidAccountOwner) ∧
    (st.address = pdaS → st.owner = progId → vault.address ≠ pdaV →
      (process_deposit progId pdaS pdaV [payer, st, vault, sys] data).res =
        .error .InvalidAccountData) ∧
    (st.is_writable = true → vault.is_writable = true → st.address = pdaS →
      st.owner = progId → vault.address = pdaV → vault.owner ≠ progId →
      (process_deposit progId pdaS pdaV [payer, st, vault, sys] data).res =
        .error .InvalidAccountOwner) := by
  refine ⟨?_, ?_, ?_, ?_⟩
  · intro haddr
    by_cases hw1 : st.is_writable = true
    · by_cases hw2 : vault.is_writable = true
      · simp [process_deposit, process_deposit_core, deposit_after_transfer,
              hsig, hw1, hw2, hlen, tryIntoArr_amount data hlen,
              tryIntoArr_commit data hlen, tryIntoArr_root data hlen,
              hnz, hbal, haddr]
      · simp [process_deposit, process_deposit_core, hsig, hw1, hw2]
    · simp [process_deposit, process_deposit_core, hsig, hw1]
  · intro hw1 hw2 haddr howner
    simp [process_deposit, process_deposit_core, deposit_after_transfer,
          hsig, hw1, hw2, hlen, tryIntoArr_amount data hlen,
          tryIntoArr_commit data hlen, tryIntoArr_root data hlen,
          hnz, hbal, haddr, howner]
  · intro haddr howner hvaddr
    by_cases hw1 : st.is_writable = true
    · by_cases hw2 : vault.is_writable = true
      · simp [process_deposit, process_deposit_core, deposit_after_transfer,
              hsig, hw1, hw2, hlen, tryIntoArr_amount data hlen,
              tryIntoArr_commit data hlen, tryIntoArr_root data hlen,
              hnz, hbal, haddr, howner, hvaddr]
      · simp [process_deposit, process_deposit_core, hsig, hw1, hw2]
    · simp [process_deposit, process_deposit_core, hsig, hw1]
  · intro hw1 hw2 haddr howner hvaddr hvowner
    simp [process_deposit, process_deposit_core, deposit_after_transfer,
          hsig, hw1, hw2, hlen, tryIntoArr_amount data hlen,
          tryIntoArr_commit data hlen, tryIntoArr_root data hlen,
          hnz, hbal, haddr, howner, hvaddr, hvowner]

/-- C5 witness: the theorem applied at concrete accounts, then projected
at the concrete mismatches: a state at address 9 (first conjunct, on a
non-writable-irrelevant configuration) yields invalid-account-data, and a
state owned by 8 (second conjunct) yields invalid-owner. -/
theorem C5_witness :
    (process_deposit 7 2 3 [samplePayer, badAddrState, sampleVault, sampleSys]
        dataA).res = .error .InvalidAccountData ∧
    (process_deposit 7 2 3 [samplePayer, badOwnerState, sampleVault, sampleSys]
        dataA).res = .error .InvalidAccountOwner :=
  ⟨(C5_address_and_owner_mismatch_rejected 7 2 3 samplePayer badAddrState
      sampleVault sampleSys dataA (by decide) (by decide) (by decide)
      (by decide)).1 (by decide),
   (C5_address_and_owner_mismatch_rejected 7 2 3 samplePayer badOwnerState
      sampleVault sampleSys dataA (by decide) (by decide) (by decide)
      (by decide)).2.1 (by decide) (by decide) (by decide) (by decide)⟩

/-- C6: counterexample.  The claim says a 4-account call with a 71-byte
payload fails with the invalid-instruction-data error before the signer
and writability checks.  Concretely, with a 71-byte payload and a
non-signing payer the handler returns the missing-signature error, not the
invalid-instruction-data error: the signer check runs before the length
check. -/
theorem C6_counterexample_signer_checked_before_length :
    (process_deposit 7 2 3 [nonSigningPayer, sampleState, sampleVault, sampleSys]
        data71).res = .error .MissingRequiredSignature ∧
    (process_deposit 7 2 3 [nonSigningPayer, sampleState, sampleVault, sampleSys]
        data71).res ≠ .error .InvalidInstructionData := by
  decide

/-- C6 (amended): with exactly 4 accounts, a signing payer and writable
state and vault accounts, any payload whose length is not 72 bytes (71
included) is rejected with the invalid-instruction-data error before any
further account check and before any mutation — but the signer and
writability checks run before the length check, not after it. -/
theorem C6_amended_bad_length_rejected_after_access_checks
    (progId pdaS pdaV : Nat) (payer st vault sys : AccountView)
    (data : List Nat) (hsig : payer.is_signer = true)
    (hw1 : st.is_writable = true) (hw2 : vault.is_writable = true)
    (hlen : data.length ≠ 72) :
    process_deposit progId pdaS pdaV [payer, st, vault, sys] data =
      ⟨[], .error .InvalidInstructionData⟩ := by
  simp [process_deposit, process_deposit_core, hsig, hw1, hw2, hlen]

/-- C6 witness: the amended theorem at a concrete 71-byte payload. -/
theorem C6_amended_witness :
    process_deposit 7 2 3 [samplePayer, sampleState, sampleVault, sampleSys]
        data71 = ⟨[], .error .InvalidInstructionData⟩ :=
  C6_amended_bad_length_rejected_after_access_checks 7 2 3
    samplePayer sampleState sampleVault sampleSys data71
    (by decide) (by decide) (by decide) (by decide)

/-- C7: counterexample.  The claim says a wrong account count is reported
as the invalid-instruction-data error kind.  Concretely, with 3 accounts
the handler fails with the not-enough-account-keys error, which is a
different error kind. -/
theorem C7_counterexample_error_kind :
    (process_deposit 7 2 3 [samplePayer, sampleState, sampleVault] dataA).res =
      .error .NotEnoughAccountKeys ∧
    (process_deposit 7 2 3 [samplePayer, sampleState, sampleVault] dataA).res ≠
      .error .InvalidInstructionData := by
  decide

/-- C7 (amended): every call whose account list does not contain exactly 4
accounts — fewer or more — fails with the not-enough-account-keys error
(not the invalid-instruction-data error), with no effect performed. -/
theorem C7_amended_wrong_arity_not_enough_account_keys
    (progId pdaS pdaV : Nat) (accounts : List AccountView) (data : List Nat)
    (h : accounts.length ≠ 4) :
    process_deposit progId pdaS pdaV accounts data =
      ⟨[], .error .NotEnoughAccountKeys⟩ := by
  rcases accounts with _ | ⟨p, _ | ⟨s, _ | ⟨v, _ | ⟨g, _ | ⟨x, rest⟩⟩⟩⟩⟩ <;>
    simp_all [process_deposit]

/-- C7 witness: the amended theorem at a concrete 3-account list. -/
theorem C7_amended_witness :
    process_deposit 7 2 3 [samplePayer, sampleState, sampleVault] dataA =
      ⟨[], .error .NotEnoughAccountKeys⟩ :=
  C7_amended_wrong_arity_not_enough_account_keys 7 2 3
    [samplePayer, sampleState, sampleVault] dataA (by decide)

/-- C8: refuted (code bug; `ShieldedPoolState` is modelled from the spec
since src/state.rs is not in the sources, and deposit.rs contains no
capacity check and treats the root write as infallible).  The claim says a
deposit at accumulator capacity (leaf_count = 2^D) fails with a
resource-exhaustion error.  Concretely, with the depth-20 pool at
leaf_count = 2^20 = 1048576 the deposit still succeeds and overwrites the
root history with the client-supplied bytes. -/
theorem C8_no_capacity_check_deposit_succeeds_at_full_tree :
    (process_deposit 7 2 3 [samplePayer, fullState, sampleVault, sampleSys]
        dataA).res =
      .ok ⟨9000000, 1000500, fullPool.add_root rootBytesA⟩ := by
  rfl

/-- C9: confirmed.  The commitment field (payload bytes 8..39) has no
influence on the outcome: two calls on the same accounts whose payloads
have the same length, the same bytes 0..7 and the same bytes 40.. produce
exactly the same result — same return value and same effect trace. -/
theorem C9_commitment_noninterference (progId pdaS pdaV : Nat)
    (accounts : List AccountView) (d1 d2 : List Nat)
    (hlen : d1.length = d2.length) (hpre : d1.take 8 = d2.take 8)
    (hpost : d1.drop 40 = d2.drop 40) :
    process_deposit progId pdaS pdaV accounts d1 =
      process_deposit progId pdaS pdaV accounts d2 := by
  rcases accounts with _ | ⟨p, _ | ⟨s, _ | ⟨v, _ | ⟨g, _ | ⟨x, rest⟩⟩⟩⟩⟩ <;>
    simp only [process_deposit]
  case cons.cons.cons.cons.nil =>
    unfold process_deposit_core
    by_cases h72 : d1.length = 72
    · have h72' : d2.length = 72 := by omega
      simp [h72, h72', tryIntoArr_amount d1 h72, tryIntoArr_commit d1 h72,
            tryIntoArr_root d1 h72, tryIntoArr_amount d2 h72',
            tryIntoArr_commit d2 h72', tryIntoArr_root d2 h72', hpre, hpost]
    · have h72' : ¬ d2.length = 72 := by omega
      simp [h72, h72']

/-- C9 witness: two concrete payloads that differ only in the commitment
bytes (17s versus 99s) produce identical results. -/
theorem C9_witness :
    process_deposit 7 2 3 [samplePayer, sampleState, sampleVault, sampleSys]
        dataA =
      process_deposit 7 2 3 [samplePayer, sampleState, sampleVault, sampleSys]
        dataC :=
  C9_commitment_noninterference 7 2 3
    [samplePayer, sampleState, sampleVault, sampleSys] dataA dataC
    (by decide) (by decide) (by decide)

/-- C10: confirmed.  Once the payload length check `data.len() == 72` has
passed, the three fixed-offset slice conversions (bytes 0..8, 8..40,
40..72) always succeed — their invalid-instruction-data fallback branches
are unreachable. -/
theorem C10_parses_never_fail_at_length_72 (data : List Nat)
    (h : data.length = 72) :
    (tryIntoArr data 0 8 8).isSome = true ∧
    (tryIntoArr data 8 40 32).isSome = true ∧
    (tryIntoArr data 40 72 32).isSome = true := by
  simp [tryIntoArr_amount data h, tryIntoArr_commit data h,
        tryIntoArr_root data h]

/-- C10 witness: the theorem at a concrete 72-byte payload. -/
theorem C10_witness :
    (tryIntoArr dataA 0 8 8).isSome = true ∧
    (tryIntoArr dataA 8 40 32).isSome = true ∧
    (tryIntoArr dataA 40 72 32).isSome = true :=
  C10_parses_never_fail_at_length_72 dataA (by decide)

end ShieldedPool
